import Mathlib

/-!
Verification of the Remix blog-admin edit route (`/posts/admin/$slug`).

The repository contains two near-duplicate route handlers:
  * `src/app/routes/posts/admin/$slug.tsx` — the authenticated variant
    (calls `requireUserId` first);
  * `src/unnamed/part_000` — the unauthenticated variant.

Each has a `loader` (fetch the post by route slug) and an `action`
(delete, or validate-and-update, a post).  We embed both shallowly:

  * Submitted form data is a list of `(name, value)` pairs of strings
    (all form controls in the route submit text values).
  * `formData.get(name)` returns the FIRST value for `name`, or `null`
    (`Option.none`) when absent.
  * `Object.fromEntries(formData)` keeps the LAST value for each key,
    so the `_action` discriminator read off it is the last occurrence.
  * JavaScript truthiness of a `string | null` form value: a string is
    truthy iff non-empty; `null` is falsy.
  * The persistence layer (`deletePost`, `updatePost`, `getPost`) is
    external; each action run is embedded as the list of persistence
    calls it performs together with its returned response.  A thrown
    `invariant` is an `invariantFailure` response; a thrown
    authentication error (from `requireUserId`) is an `authFailure`.
-/

/-- Submitted form data: ordered `(name, value)` pairs. -/
def FormData := List (String × String)

/-- Embeds `formData.get(name)`: first value under `name`, `null` when absent. -/
def formGet (fd : FormData) (name : String) : Option String :=
  match fd with
  | [] => none
  | (k, v) :: rest => if k = name then some v else formGet rest name

/-- Lookup via `Object.fromEntries(formData)`: last value wins. -/
def entriesGet (fd : FormData) (name : String) : Option String :=
  match fd with
  | [] => none
  | (k, v) :: rest =>
      match entriesGet rest name with
      | some w => some w
      | none => if k = name then some v else none

/-- JavaScript truthiness of a `FormDataEntryValue | null`:
`null` is falsy, a string is truthy iff it is non-empty. -/
def isTruthy : Option String → Bool
  | none => false
  | some s => s ≠ ""

/-- Shape of a blog post as used by this route (external data layer). -/
structure Post where
  slug : String
  title : String
  markdown : String
deriving Repr, DecidableEq

/-- One call into the persistence layer made by the action. -/
inductive PersistCall
  /-- A call `deletePost(slug)`; the slug is passed through unchecked and may
  be `null` (the unauthenticated variant passes it as-is, the
  authenticated one through a type-unsafe cast — same runtime value). -/
  | deletePost (slug : Option String)
  /-- A call `updatePost(initialSlug, { title, slug, markdown })`. -/
  | updatePost (initialSlug : String) (title : String) (slug : String)
      (markdown : String)
deriving Repr, DecidableEq

/-- Response returned (or thrown) by the action. -/
inductive ActionResult
  /-- The response `redirect(location)`. -/
  | redirect (location : String)
  /-- The response `json<ActionData>(errors)` with the three per-field entries,
  each a message string or `null`. -/
  | jsonErrors (title : Option String) (slug : Option String)
      (markdown : Option String)
  /-- A failed `invariant(cond, msg)` throws with `msg`. -/
  | invariantFailure (msg : String)
  /-- The call `requireUserId` threw: the request terminates before the body
  of the action runs. -/
  | authFailure
deriving Repr, DecidableEq

/-- An action run: persistence calls performed, in order, and the
response produced. -/
structure ActionRun where
  calls : List PersistCall
  result : ActionResult
deriving Repr, DecidableEq

/-- The validate-and-update path of the action (the code after the
`_action === "delete"` branch, identical in both variants):
reads `initialSlug`, `title`, `slug`, `markdown`; builds the errors
object (`field ? null : "… is required"`); returns it when any entry
is truthy; otherwise asserts the four `typeof … === "string"`
invariants in order and calls
`updatePost(initialSlug, { title, slug, markdown })`, then redirects. -/
def updateBranch (fd : FormData) : ActionRun :=
  let initialSlug := formGet fd "initialSlug"
  let title := formGet fd "title"
  let slug := formGet fd "slug"
  let markdown := formGet fd "markdown"
  let titleError : Option String :=
    if isTruthy title then none else some "Title is required"
  let slugError : Option String :=
    if isTruthy slug then none else some "Slug is required"
  let markdownError : Option String :=
    if isTruthy markdown then none else some "Markdown is required"
  let hasErrors :=
    titleError.isSome || slugError.isSome || markdownError.isSome
  if hasErrors then
    { calls := [], result := .jsonErrors titleError slugError markdownError }
  else
    match initialSlug with
    | none =>
        { calls := [], result := .invariantFailure "initial slug must be a string" }
    | some is =>
        match title with
        | none => { calls := [], result := .invariantFailure "title must be a string" }
        | some t =>
            match slug with
            | none => { calls := [], result := .invariantFailure "slug must be a string" }
            | some s =>
                match markdown with
                | none =>
                    { calls := [], result := .invariantFailure "markdown must be a string" }
                | some m =>
                    { calls := [PersistCall.updatePost is t s m],
                      result := .redirect "/posts/admin" }

/-- The `action` of the unauthenticated variant (`src/unnamed/part_000`):
destructures `_action` out of `Object.fromEntries(formData)`; when it
equals `"delete"` reads `slug` via `formData.get` and calls
`deletePost(slug)` then redirects to `/posts/admin`; otherwise runs the
validate-and-update path. -/
def actionPart000 (fd : FormData) : ActionRun :=
  let a := entriesGet fd "_action"
  if a = some "delete" then
    let slug := formGet fd "slug"
    { calls := [PersistCall.deletePost slug],
      result := .redirect "/posts/admin" }
  else
    updateBranch fd

/-- The `action` of the authenticated variant
(`src/app/routes/posts/admin/$slug.tsx`): first `await requireUserId(request)`
— embedded as `auth : Option String`, `none` meaning `requireUserId`
threw — then the same body as the unauthenticated variant (the only
textual difference in the body is the `slug as string` cast passed to
`deletePost`, which does not change the runtime value). -/
def actionSlugTsx (auth : Option String) (fd : FormData) : ActionRun :=
  match auth with
  | none => { calls := [], result := .authFailure }
  | some _ =>
      let a := entriesGet fd "_action"
      if a = some "delete" then
        let slug := formGet fd "slug"
        { calls := [PersistCall.deletePost slug],
          result := .redirect "/posts/admin" }
      else
        updateBranch fd

/-- Response produced by the `loader`. -/
inductive LoaderResult
  /-- A failed `invariant` surfaces as an unhandled server error. -/
  | serverError (msg : String)
  /-- The response `json<LoaderData>({ post })`. -/
  | ok (post : Post)
deriving Repr, DecidableEq

/-- The `loader` (identical in both variants): asserts
`invariant(params.slug, "params.slug is required")` (truthiness: fails
when the route parameter is absent or the empty string), fetches the
post with `getPost(params.slug)`, asserts
`invariant(post, "Post not found: " + params.slug)`, and returns the
post as response data.  `getPost` is the external persistence lookup,
passed in as a function. -/
def loader (getPost : String → Option Post) (slugParam : Option String) :
    LoaderResult :=
  if isTruthy slugParam then
    match slugParam with
    | some s =>
        match getPost s with
        | none => .serverError ("Post not found: " ++ s)
        | some p => .ok p
    | none => .serverError "params.slug is required"
  else
    .serverError "params.slug is required"

/-! ## Helper lemmas (shared) -/

/-- With a successful session, the authenticated variant's action runs
exactly the body of the unauthenticated one: the two definitions agree
on every form submission. -/
theorem actionSlugTsx_some (u : String) (fd : FormData) :
    actionSlugTsx (some u) fd = actionPart000 fd := rfl

/-! ## Claims -/

/-- C1: For every update submission (one whose `_action` field is not
`"delete"`) in which `initialSlug` is submitted and `title`, `slug`,
`markdown` are all present and non-empty, the action performs exactly one
persistence call — `updatePost(initialSlug, { title, slug, markdown })` —
and returns a redirect to `/posts/admin`.  Holds for both variants
(the authenticated one under a successful session). -/
theorem action_update_success (fd : FormData) (is t s m : String)
    (hact : entriesGet fd "_action" ≠ some "delete")
    (hinit : formGet fd "initialSlug" = some is)
    (ht : formGet fd "title" = some t) (ht0 : t ≠ "")
    (hs : formGet fd "slug" = some s) (hs0 : s ≠ "")
    (hm : formGet fd "markdown" = some m) (hm0 : m ≠ "") :
    actionPart000 fd =
      { calls := [PersistCall.updatePost is t s m],
        result := ActionResult.redirect "/posts/admin" } ∧
    ∀ u, actionSlugTsx (some u) fd =
      { calls := [PersistCall.updatePost is t s m],
        result := ActionResult.redirect "/posts/admin" } := by
  have h1 : actionPart000 fd =
      { calls := [PersistCall.updatePost is t s m],
        result := ActionResult.redirect "/posts/admin" } := by
    simp [actionPart000, updateBranch, hact, hinit, ht, hs, hm, isTruthy,
      ht0, hs0, hm0]
  exact ⟨h1, fun u => (actionSlugTsx_some u fd).trans h1⟩

/-- Witness for C1 at the concrete submission
`{initialSlug: "old", title: "T", slug: "new", markdown: "body"}`. -/
theorem action_update_success_witness :
    (entriesGet [("initialSlug", "old"), ("title", "T"), ("slug", "new"),
        ("markdown", "body")] "_action" ≠ some "delete") ∧
    actionPart000 [("initialSlug", "old"), ("title", "T"), ("slug", "new"),
        ("markdown", "body")] =
      { calls := [PersistCall.updatePost "old" "T" "new" "body"],
        result := ActionResult.redirect "/posts/admin" } :=
  ⟨by decide,
    (action_update_success
      [("initialSlug", "old"), ("title", "T"), ("slug", "new"),
        ("markdown", "body")] "old" "T" "new" "body"
      (by decide) (by decide) (by decide) (by decide) (by decide)
      (by decide) (by decide) (by decide)).1⟩

/-- C3: For every delete submission (`_action` equals `"delete"`),
regardless of any other field values, the action performs exactly one
persistence call — `deletePost` keyed by the submitted `slug` value —
and returns a redirect to `/posts/admin`.  Holds for both variants. -/
theorem action_delete_spec (fd : FormData)
    (hact : entriesGet fd "_action" = some "delete") :
    actionPart000 fd =
      { calls := [PersistCall.deletePost (formGet fd "slug")],
        result := ActionResult.redirect "/posts/admin" } ∧
    ∀ u, actionSlugTsx (some u) fd =
      { calls := [PersistCall.deletePost (formGet fd "slug")],
        result := ActionResult.redirect "/posts/admin" } := by
  have h1 : actionPart000 fd =
      { calls := [PersistCall.deletePost (formGet fd "slug")],
        result := ActionResult.redirect "/posts/admin" } := by
    simp [actionPart000, hact]
  exact ⟨h1, fun u => (actionSlugTsx_some u fd).trans h1⟩

/-- Witness for C3 at the concrete submission
`{_action: "delete", slug: "my-post"}`: `deletePost("my-post")` is called
once and the response redirects to `/posts/admin`. -/
theorem action_delete_spec_witness :
    (entriesGet [("_action", "delete"), ("slug", "my-post")] "_action"
        = some "delete") ∧
    actionPart000 [("_action", "delete"), ("slug", "my-post")] =
      { calls := [PersistCall.deletePost (some "my-post")],
        result := ActionResult.redirect "/posts/admin" } :=
  ⟨by decide,
    (action_delete_spec [("_action", "delete"), ("slug", "my-post")]
      (by decide)).1⟩

/-- C6: The authenticated variant's action and the unauthenticated
variant's action are behaviorally identical on every form submission once
authentication succeeds: the same persistence calls and the same
response. -/
theorem auth_variant_equiv_unauth (u : String) (fd : FormData) :
    actionSlugTsx (some u) fd = actionPart000 fd := rfl

/-- C7: In the authenticated variant, when `requireUserId` fails the
action terminates before any other logic runs: no persistence call is
made, the response is the propagated authentication failure, and the
outcome does not depend on the form body at all (it equals the outcome
on the empty body, so the body is never parsed or validated). -/
theorem auth_failure_short_circuit (fd : FormData) :
    (actionSlugTsx none fd).calls = [] ∧
    (actionSlugTsx none fd).result = ActionResult.authFailure ∧
    actionSlugTsx none fd = actionSlugTsx none [] :=
  ⟨rfl, rfl, rfl⟩

/-- C10: For every delete submission in which the `slug` field is absent,
no validation occurs and no error is returned: the action still calls
`deletePost` exactly once, passing the missing value (`null`) through
unchecked, and redirects to `/posts/admin`.  Holds for both variants. -/
theorem action_delete_missing_slug (fd : FormData)
    (hact : entriesGet fd "_action" = some "delete")
    (hslug : formGet fd "slug" = none) :
    actionPart000 fd =
      { calls := [PersistCall.deletePost none],
        result := ActionResult.redirect "/posts/admin" } ∧
    ∀ u, actionSlugTsx (some u) fd =
      { calls := [PersistCall.deletePost none],
        result := ActionResult.redirect "/posts/admin" } := by
  have h1 : actionPart000 fd =
      { calls := [PersistCall.deletePost none],
        result := ActionResult.redirect "/posts/admin" } := by
    simp [actionPart000, hact, hslug]
  exact ⟨h1, fun u => (actionSlugTsx_some u fd).trans h1⟩

/-- Witness for C10 at the concrete submission `{_action: "delete"}`
(no `slug` field): `deletePost(null)` is called and the response
redirects. -/
theorem action_delete_missing_slug_witness :
    (entriesGet [("_action", "delete")] "_action" = some "delete") ∧
    (formGet [("_action", "delete")] "slug" = none) ∧
    actionPart000 [("_action", "delete")] =
      { calls := [PersistCall.deletePost none],
        result := ActionResult.redirect "/posts/admin" } :=
  ⟨by decide, by decide,
    (action_delete_missing_slug [("_action", "delete")]
      (by decide) (by decide)).1⟩

/-- The update branch makes at most one persistence call (helper). -/
theorem updateBranch_calls_len (fd : FormData) :
    (updateBranch fd).calls.length ≤ 1 := by
  cases h1 : formGet fd "initialSlug" <;>
    cases h2 : formGet fd "title" <;>
      cases h3 : formGet fd "slug" <;>
        cases h4 : formGet fd "markdown" <;>
          simp [updateBranch, h1, h2, h3, h4, isTruthy] <;>
            split <;> simp

/-- The update branch never performs a deletePost call (helper). -/
theorem updateBranch_no_delete (fd : FormData) (os : Option String) :
    PersistCall.deletePost os ∉ (updateBranch fd).calls := by
  cases h1 : formGet fd "initialSlug" <;>
    cases h2 : formGet fd "title" <;>
      cases h3 : formGet fd "slug" <;>
        cases h4 : formGet fd "markdown" <;>
          simp [updateBranch, h1, h2, h3, h4, isTruthy] <;>
            split <;> simp

/-- C2: For every update submission in which any of `title`, `slug`,
`markdown` is empty or absent (falsy), the action performs no persistence
call and returns an errors object whose entries are exactly a message for
each empty/absent field and `null` for each present field.  Holds for
both variants. -/
theorem action_update_validation (fd : FormData)
    (hact : entriesGet fd "_action" ≠ some "delete")
    (hbad : isTruthy (formGet fd "title") = false ∨
      isTruthy (formGet fd "slug") = false ∨
      isTruthy (formGet fd "markdown") = false) :
    actionPart000 fd =
      { calls := [],
        result := ActionResult.jsonErrors
          (if isTruthy (formGet fd "title") then none
            else some "Title is required")
          (if isTruthy (formGet fd "slug") then none
            else some "Slug is required")
          (if isTruthy (formGet fd "markdown") then none
            else some "Markdown is required") } ∧
    ∀ u, actionSlugTsx (some u) fd =
      { calls := [],
        result := ActionResult.jsonErrors
          (if isTruthy (formGet fd "title") then none
            else some "Title is required")
          (if isTruthy (formGet fd "slug") then none
            else some "Slug is required")
          (if isTruthy (formGet fd "markdown") then none
            else some "Markdown is required") } := by
  have h1 : actionPart000 fd =
      { calls := [],
        result := ActionResult.jsonErrors
          (if isTruthy (formGet fd "title") then none
            else some "Title is required")
          (if isTruthy (formGet fd "slug") then none
            else some "Slug is required")
          (if isTruthy (formGet fd "markdown") then none
            else some "Markdown is required") } := by
    unfold actionPart000
    rw [if_neg hact]
    unfold updateBranch
    cases htt : isTruthy (formGet fd "title") <;>
      cases hss : isTruthy (formGet fd "slug") <;>
        cases hmm : isTruthy (formGet fd "markdown") <;>
          simp_all
  exact ⟨h1, fun u => (actionSlugTsx_some u fd).trans h1⟩

/-- Witness for C2 at the concrete submission
`{title: "", slug: "x", markdown: "y"}`: the response is
`{title: "Title is required", slug: null, markdown: null}` and no
persistence call occurs. -/
theorem action_update_validation_witness :
    (entriesGet [("title", ""), ("slug", "x"), ("markdown", "y")] "_action"
        ≠ some "delete") ∧
    (isTruthy (formGet [("title", ""), ("slug", "x"), ("markdown", "y")]
        "title") = false) ∧
    actionPart000 [("title", ""), ("slug", "x"), ("markdown", "y")] =
      { calls := [],
        result := ActionResult.jsonErrors (some "Title is required")
          none none } :=
  ⟨by decide, by decide, by
    rw [(action_update_validation
        [("title", ""), ("slug", "x"), ("markdown", "y")]
        (by decide) (Or.inl (by decide))).1]
    decide⟩

/-- C4 as stated is false: a submission that fails validation performs
zero persistence calls, not exactly one.  Counterexample: the empty
submission takes the update path, fails validation, and makes no call. -/
theorem action_exactly_one_call_cex :
    (actionPart000 []).calls.length ≠ 1 := by decide

/-- C4 (amended): every request performs at most one persistence call —
a delete or an update, never both — in either variant. -/
theorem action_at_most_one_call (fd : FormData) (auth : Option String) :
    (actionPart000 fd).calls.length ≤ 1 ∧
    (actionSlugTsx auth fd).calls.length ≤ 1 := by
  have hp : ∀ g : FormData, (actionPart000 g).calls.length ≤ 1 := by
    intro g
    by_cases hd : entriesGet g "_action" = some "delete"
    · simp [actionPart000, hd]
    · rw [show actionPart000 g = updateBranch g by simp [actionPart000, hd]]
      exact updateBranch_calls_len g
  refine ⟨hp fd, ?_⟩
  cases auth with
  | none => simp [actionSlugTsx]
  | some u => rw [actionSlugTsx_some]; exact hp fd

/-- C5: the loader raises a server error exactly when its precondition
fails: a missing route slug (absent, or the empty string — falsy under
the `invariant` truthiness check) fails fast with
`params.slug is required`; a present slug with no matching post raises
the not-found error; a present slug with a matching post returns that
post as response data. -/
theorem loader_spec (getPost : String → Option Post)
    (slugParam : Option String) :
    (slugParam = none →
      loader getPost slugParam =
        LoaderResult.serverError "params.slug is required") ∧
    (slugParam = some "" →
      loader getPost slugParam =
        LoaderResult.serverError "params.slug is required") ∧
    (∀ s, slugParam = some s → s ≠ "" → getPost s = none →
      loader getPost slugParam =
        LoaderResult.serverError ("Post not found: " ++ s)) ∧
    (∀ s p, slugParam = some s → s ≠ "" → getPost s = some p →
      loader getPost slugParam = LoaderResult.ok p) := by
  refine ⟨?_, ?_, ?_, ?_⟩
  · rintro rfl; rfl
  · rintro rfl; rfl
  · rintro s rfl hs hg
    simp [loader, isTruthy, hs, hg]
  · rintro s p rfl hs hg
    simp [loader, isTruthy, hs, hg]

/-- Witness for C5 over a one-post store mapping slug "a" to a post:
loading "a" returns the post, loading "b" raises not-found, and a
missing slug parameter fails fast. -/
theorem loader_spec_witness :
    loader (fun s => if s = "a"
        then some { slug := "a", title := "T", markdown := "M" } else none)
      (some "a")
      = LoaderResult.ok { slug := "a", title := "T", markdown := "M" } ∧
    loader (fun s => if s = "a"
        then some { slug := "a", title := "T", markdown := "M" } else none)
      (some "b")
      = LoaderResult.serverError ("Post not found: " ++ "b") ∧
    loader (fun s => if s = "a"
        then some { slug := "a", title := "T", markdown := "M" } else none)
      none
      = LoaderResult.serverError "params.slug is required" :=
  ⟨(loader_spec _ (some "a")).2.2.2 "a"
      { slug := "a", title := "T", markdown := "M" } rfl (by decide) rfl,
   (loader_spec _ (some "b")).2.2.1 "b" rfl (by decide) rfl,
   (loader_spec _ none).1 rfl⟩

/-- C8: for every submission in which `title`, `slug`, `markdown` are all
present and non-empty but `initialSlug` is absent, the `invariant` on
`initialSlug` throws before `updatePost` is reached, so no persistence
call occurs.  Holds for both variants. -/
theorem action_update_missing_initialSlug (fd : FormData) (t s m : String)
    (hact : entriesGet fd "_action" ≠ some "delete")
    (hinit : formGet fd "initialSlug" = none)
    (ht : formGet fd "title" = some t) (ht0 : t ≠ "")
    (hs : formGet fd "slug" = some s) (hs0 : s ≠ "")
    (hm : formGet fd "markdown" = some m) (hm0 : m ≠ "") :
    actionPart000 fd =
      { calls := [],
        result := ActionResult.invariantFailure
          "initial slug must be a string" } ∧
    ∀ u, actionSlugTsx (some u) fd =
      { calls := [],
        result := ActionResult.invariantFailure
          "initial slug must be a string" } := by
  have h1 : actionPart000 fd =
      { calls := [],
        result := ActionResult.invariantFailure
          "initial slug must be a string" } := by
    simp [actionPart000, updateBranch, hact, hinit, ht, hs, hm, isTruthy,
      ht0, hs0, hm0]
  exact ⟨h1, fun u => (actionSlugTsx_some u fd).trans h1⟩

/-- Witness for C8 at the concrete submission
`{title: "T", slug: "s1", markdown: "M"}` (no `initialSlug`). -/
theorem action_update_missing_initialSlug_witness :
    (entriesGet [("title", "T"), ("slug", "s1"), ("markdown", "M")]
        "_action" ≠ some "delete") ∧
    (formGet [("title", "T"), ("slug", "s1"), ("markdown", "M")]
        "initialSlug" = none) ∧
    actionPart000 [("title", "T"), ("slug", "s1"), ("markdown", "M")] =
      { calls := [],
        result := ActionResult.invariantFailure
          "initial slug must be a string" } :=
  ⟨by decide, by decide,
    (action_update_missing_initialSlug
      [("title", "T"), ("slug", "s1"), ("markdown", "M")] "T" "s1" "M"
      (by decide) (by decide) (by decide) (by decide) (by decide)
      (by decide) (by decide) (by decide)).1⟩

/-- C9: the delete/update discriminator is exact string equality: for
every submission whose `_action` field is anything other than exactly
`"delete"` (including `"Delete"`, `"DELETE"`, or absent), the action
takes the validate-and-update path — its outcome is exactly that of the
update branch and no deletePost call is ever made.  Holds for both
variants. -/
theorem action_discriminator_exact (fd : FormData)
    (hact : entriesGet fd "_action" ≠ some "delete") :
    actionPart000 fd = updateBranch fd ∧
    (∀ u, actionSlugTsx (some u) fd = updateBranch fd) ∧
    ∀ os, PersistCall.deletePost os ∉ (actionPart000 fd).calls := by
  have h1 : actionPart000 fd = updateBranch fd := by
    simp [actionPart000, hact]
  refine ⟨h1, fun u => (actionSlugTsx_some u fd).trans h1, fun os => ?_⟩
  rw [h1]
  exact updateBranch_no_delete fd os

/-- Witness for C9 at the concrete submission `{_action: "Delete"}`
(case differs from "delete"): the update path is taken. -/
theorem action_discriminator_exact_witness :
    (entriesGet [("_action", "Delete")] "_action" ≠ some "delete") ∧
    actionPart000 [("_action", "Delete")] =
      updateBranch [("_action", "Delete")] :=
  ⟨by decide,
    (action_discriminator_exact [("_action", "Delete")] (by decide)).1⟩
